import Mathlib

/- Verification of the newspaper-article cleaning pipeline in
   newspaper_receipe.py.

   Embedding conventions:
   * A pandas DataFrame is a list of rows together with the list of its
     column names and its index.  A row maps a column name to an optional
     cell; `none` models a NaN / missing cell.
   * Python exceptions are modelled with `Except PyError`.
   * The external collaborators that the spec declares out of scope
     (nltk.word_tokenize, the stopword list) are parameters of the
     functions that use them.  `pd.read_csv` is external as well: `main`
     takes the loaded DataFrame as an argument.
   * hashlib.md5 is embedded as a full MD5 implementation over byte
     lists; `urlparse(...).netloc` is embedded following CPython's
     `urllib.parse.urlsplit` (scheme split, `//`-authority detection,
     the Invalid-IPv6 ValueError); the NFKC netloc check, which can only
     fire on non-ASCII authorities, is not modelled. -/

/-- A cell of the table: the data of this pipeline holds strings and
(token-count) integers.  A missing cell (pandas NaN) is `none` at the
row level, not a `Cell`. -/
inductive Cell where
  | str (v : String)
  | nat (v : Nat)
deriving DecidableEq

/-- The Python exceptions the pipeline can raise. -/
inductive PyError where
  | keyError
  | attributeError
  | typeError
  | valueError
deriving DecidableEq

/-- An index label of the DataFrame: positional (RangeIndex / integer),
a string key, or NaN. -/
inductive Label where
  | pos (n : Nat)
  | key (s : String)
  | na
deriving DecidableEq

/-- A row: a map from column name to optional cell (`none` = NaN). -/
def Row : Type := String → Option Cell

def emptyRow : Row := fun _ => none

/-- Writing one cell of a row (`df.loc[i, c] = v`); writing `none`
stores a NaN. -/
def Row.setCell (r : Row) (c : String) (v : Option Cell) : Row :=
  fun c' => if c' = c then v else r c'

/-- The in-memory table: column names, index labels, rows (in order). -/
structure DataFrame where
  cols : List String
  index : List Label
  rows : List Row

/-- The row at position i (the rows beyond the end read as all-NaN). -/
def rowAt (df : DataFrame) (i : Nat) : Row :=
  df.rows.getD i emptyRow

/-- Row-aligned column write: each row receives the matching value of
the assigned series. -/
def applyCol (c : String) : List Row → List (Option Cell) → List Row
  | [], _ => []
  | r :: rs, [] => r :: rs
  | r :: rs, v :: vs => r.setCell c v :: applyCol c rs vs

/-- df[c] = series: adds the column name when new and writes the
aligned value into every row. -/
def DataFrame.setColumn (df : DataFrame) (c : String) (vals : List (Option Cell)) : DataFrame :=
  { df with
    cols := if df.cols.contains c then df.cols else df.cols ++ [c],
    rows := applyCol c df.rows vals }

/-- df.dropna() keeps a row iff every column's cell is present. -/
def hasNoNa (cols : List String) (r : Row) : Bool :=
  cols.all (fun c => (r c).isSome)

/-- The index label a cell value turns into under set_index. -/
def labelOf : Option Cell → Label
  | some (Cell.str s) => Label.key s
  | some (Cell.nat n) => Label.pos n
  | none => Label.na

/-- df.set_index(c): the column's values become the index and the
column is removed from the table body.  (Only called on a column that
was just assigned, so the KeyError branch of pandas cannot fire.) -/
def DataFrame.set_index (df : DataFrame) (c : String) : DataFrame :=
  { cols := df.cols.erase c,
    index := df.rows.map (fun r => labelOf (r c)),
    rows := df.rows.map (fun r => r.setCell c none) }

/-- Sequential per-row computation of an assigned series; the first
raised exception propagates, as in pandas apply chains. -/
def mapME (g : Row → Except PyError (Option Cell)) : List Row → Except PyError (List (Option Cell))
  | [] => .ok []
  | r :: rs =>
    match g r with
    | .error e => .error e
    | .ok v =>
      match mapME g rs with
      | .error e => .error e
      | .ok vs => .ok (v :: vs)

/- ---------- Python string primitives used by the source ---------- -/

/-- Python str.split(sep) for a one-character separator. -/
def splitChar (sep : Char) : List Char → List (List Char)
  | [] => [[]]
  | c :: cs =>
    if c = sep then [] :: splitChar sep cs
    else
      match splitChar sep cs with
      | [] => [[c]]
      | t :: ts => (c :: t) :: ts

/-- Python ' '.join(pieces) (over char lists). -/
def joinSpaces : List (List Char) → List Char
  | [] => []
  | [l] => l
  | l :: l2 :: ls => l ++ ' ' :: joinSpaces (l2 :: ls)

/-- re.search of the pattern ( [^/]+ )$ : the maximal non-empty run of
non-slash characters at the end of the string, `none` when the string
is empty or ends in a slash. -/
def extractLastSegment (s : String) : Option String :=
  let seg := (s.data.reverse.takeWhile (fun c => !(c == '/'))).reverse
  if seg.isEmpty then none else some ⟨seg⟩

/-- Python str.isalpha (restricted to the ASCII letters; the claims do
not depend on the exact Unicode alphabet since the tokenizer itself is
an external parameter). -/
def pyIsAlpha (s : String) : Bool :=
  !(s.data.isEmpty) && s.data.all (fun c => c.isAlpha)

/- ---------- urllib.parse.urlparse(...).netloc ---------- -/

def scheme_chars : List Char :=
  "abcdefghijklmnopqrstuvwxyzABCDEFGHIJKLMNOPQRSTUVWXYZ0123456789+-.".data

/-- urlsplit removes tab, CR and LF from the url before parsing. -/
def removeUnsafeBytes (cs : List Char) : List Char :=
  cs.filter (fun c => !(c == '\t' || c == '\r' || c == '\n'))

/-- The scheme-stripping step of urlsplit: when a ':' occurs at a
positive position and everything before it is a scheme character, the
remainder after the ':' is parsed; otherwise the url is unchanged. -/
def urlAfterScheme (cs : List Char) : List Char :=
  match cs.findIdx? (fun c => c == ':') with
  | some i =>
    if 0 < i ∧ (cs.take i).all (fun c => scheme_chars.contains c) then cs.drop (i + 1) else cs
  | none => cs

/-- _splitnetloc: the authority runs until the first '/', '?' or '#'. -/
def splitNetlocChars (cs : List Char) : List Char :=
  cs.takeWhile (fun c => !(c == '/' || c == '?' || c == '#'))

/-- urlparse(url).netloc, raising ValueError on an authority with
unbalanced square brackets (CPython's "Invalid IPv6 URL"). -/
def urlNetloc (url : String) : Except PyError String :=
  let cs := removeUnsafeBytes url.data
  let rest := urlAfterScheme cs
  if rest.take 2 = ['/', '/'] then
    let netloc := splitNetlocChars (rest.drop 2)
    if (netloc.contains '[' && !(netloc.contains ']')) ||
       (netloc.contains ']' && !(netloc.contains '[')) then
      .error PyError.valueError
    else
      .ok ⟨netloc⟩
  else
    .ok ""

/- ---------- hashlib.md5 over the UTF-8 bytes of a string ---------- -/

/-- UTF-8 encoding of one code point. -/
def utf8EncodeChar (ch : Char) : List Nat :=
  let c := ch.toNat
  if c < 128 then [c]
  else if c < 2048 then [192 + c / 64, 128 + c % 64]
  else if c < 65536 then [224 + c / 4096, 128 + (c / 64) % 64, 128 + c % 64]
  else [240 + c / 262144, 128 + (c / 4096) % 64, 128 + (c / 64) % 64, 128 + c % 64]

/-- Python str.encode(): the UTF-8 bytes of the string. -/
def utf8Encode (s : String) : List Nat :=
  s.data.flatMap utf8EncodeChar

def md5K : List Nat :=
  [0xd76aa478, 0xe8c7b756, 0x242070db, 0xc1bdceee,
   0xf57c0faf, 0x4787c62a, 0xa8304613, 0xfd469501,
   0x698098d8, 0x8b44f7af, 0xffff5bb1, 0x895cd7be,
   0x6b901122, 0xfd987193, 0xa679438e, 0x49b40821,
   0xf61e2562, 0xc040b340, 0x265e5a51, 0xe9b6c7aa,
   0xd62f105d, 0x02441453, 0xd8a1e681, 0xe7d3fbc8,
   0x21e1cde6, 0xc33707d6, 0xf4d50d87, 0x455a14ed,
   0xa9e3e905, 0xfcefa3f8, 0x676f02d9, 0x8d2a4c8a,
   0xfffa3942, 0x8771f681, 0x6d9d6122, 0xfde5380c,
   0xa4beea44, 0x4bdecfa9, 0xf6bb4b60, 0xbebfbc70,
   0x289b7ec6, 0xeaa127fa, 0xd4ef3085, 0x04881d05,
   0xd9d4d039, 0xe6db99e5, 0x1fa27cf8, 0xc4ac5665,
   0xf4292244, 0x432aff97, 0xab9423a7, 0xfc93a039,
   0x655b59c3, 0x8f0ccc92, 0xffeff47d, 0x85845dd1,
   0x6fa87e4f, 0xfe2ce6e0, 0xa3014314, 0x4e0811a1,
   0xf7537e82, 0xbd3af235, 0x2ad7d2bb, 0xeb86d391]

def md5S : List Nat :=
  [7, 12, 17, 22, 7, 12, 17, 22, 7, 12, 17, 22, 7, 12, 17, 22,
   5, 9, 14, 20, 5, 9, 14, 20, 5, 9, 14, 20, 5, 9, 14, 20,
   4, 11, 16, 23, 4, 11, 16, 23, 4, 11, 16, 23, 4, 11, 16, 23,
   6, 10, 15, 21, 6, 10, 15, 21, 6, 10, 15, 21, 6, 10, 15, 21]

def add32 (a b : Nat) : Nat := (a + b) % 4294967296

def not32 (a : Nat) : Nat := Nat.xor a 4294967295

def rotl32 (x s : Nat) : Nat := ((x <<< s) % 4294967296) ||| (x >>> (32 - s))

def md5F (i b c d : Nat) : Nat :=
  if i < 16 then (b &&& c) ||| (not32 b &&& d)
  else if i < 32 then (d &&& b) ||| (not32 d &&& c)
  else if i < 48 then Nat.xor (Nat.xor b c) d
  else Nat.xor c (b ||| not32 d)

def md5G (i : Nat) : Nat :=
  if i < 16 then i
  else if i < 32 then (5 * i + 1) % 16
  else if i < 48 then (3 * i + 5) % 16
  else (7 * i) % 16

/-- Little-endian bytes of a number. -/
def leBytes (n : Nat) (count : Nat) : List Nat :=
  (List.range count).map (fun i => (n >>> (8 * i)) % 256)

/-- MD5 padding: 0x80, zeros to 56 mod 64, 64-bit little-endian bit length. -/
def md5Pad (msg : List Nat) : List Nat :=
  msg ++ [128] ++ List.replicate ((119 - msg.length % 64) % 64) 0
      ++ leBytes (msg.length * 8 % 18446744073709551616) 8

/-- The j-th little-endian 32-bit word of a 64-byte block. -/
def word32At (blk : List Nat) (j : Nat) : Nat :=
  blk.getD (4 * j) 0 + (blk.getD (4 * j + 1) 0) <<< 8 +
    (blk.getD (4 * j + 2) 0) <<< 16 + (blk.getD (4 * j + 3) 0) <<< 24

def md5Step (m : Nat → Nat) (st : Nat × Nat × Nat × Nat) (i : Nat) : Nat × Nat × Nat × Nat :=
  let a := st.1
  let b := st.2.1
  let c := st.2.2.1
  let d := st.2.2.2
  let tmp := add32 (add32 (add32 a (md5F i b c d)) (md5K.getD i 0)) (m (md5G i))
  (d, add32 b (rotl32 tmp (md5S.getD i 0)), b, c)

def md5ProcessBlock (h : Nat × Nat × Nat × Nat) (blk : List Nat) : Nat × Nat × Nat × Nat :=
  let st := (List.range 64).foldl (md5Step (word32At blk)) h
  (add32 h.1 st.1, add32 h.2.1 st.2.1, add32 h.2.2.1 st.2.2.1, add32 h.2.2.2 st.2.2.2)

/-- The 16 digest bytes of MD5. -/
def md5Bytes (msg : List Nat) : List Nat :=
  let padded := md5Pad msg
  let st := (List.range (padded.length / 64)).foldl
      (fun h i => md5ProcessBlock h ((padded.drop (64 * i)).take 64))
      (0x67452301, 0xefcdab89, 0x98badcfe, 0x10325476)
  leBytes st.1 4 ++ leBytes st.2.1 4 ++ leBytes st.2.2.1 4 ++ leBytes st.2.2.2 4

def hexDigitChar (n : Nat) : Char :=
  "0123456789abcdef".data.getD n '0'

def byteToHex (b : Nat) : List Char :=
  [hexDigitChar (b / 16), hexDigitChar (b % 16)]

/-- hashlib.md5(bytes).hexdigest(). -/
def md5Hex (msg : List Nat) : String :=
  ⟨(md5Bytes msg).flatMap byteToHex⟩

/- ---------- the pipeline stages of newspaper_receipe.py ---------- -/

/-- Source: _extract_newspaper_uid — filename.split('_')[0].  (split
always yields at least one piece, so the Python indexing is total.) -/
def _extract_newspaper_uid (filename : String) : String :=
  ⟨(splitChar '_' filename.data).headD []⟩

/-- Source: _add_newspaper_uid_column — df['newspaper_uid'] = uid
stamps the constant on every row. -/
def _add_newspaper_uid_column (df : DataFrame) (newspaper_uid : String) : DataFrame :=
  df.setColumn "newspaper_uid" (df.rows.map (fun _ => some (Cell.str newspaper_uid)))

/-- Per-row body of _extract_host: urlparse(uri).netloc.  A NaN or
non-string uri makes urlparse raise. -/
def hostCell (r : Row) : Except PyError (Option Cell) :=
  match r "uri" with
  | some (Cell.str u) => (urlNetloc u).map (fun h => some (Cell.str h))
  | _ => .error PyError.attributeError

/-- Source: _extract_host — df['host'] = df['uri'].apply(lambda uri:
urlparse(uri).netloc); df['uri'] itself raises KeyError when the
column is absent. -/
def _extract_host (df : DataFrame) : Except PyError DataFrame :=
  if df.cols.contains "uri" then
    match mapME hostCell df.rows with
    | .ok vals => .ok (df.setColumn "host" vals)
    | .error e => .error e
  else .error PyError.keyError

/-- Per-row effect of _fill_nan_data's masked assignment: a row with a
missing title gets the '-'-split, ' '-joined final uri segment; the
str.extract miss (uri with no final segment, or a non-string uri)
leaves a NaN on which the applymap lambda raises AttributeError; a row
with a present title keeps its title value. -/
def repairTitle (r : Row) : Except PyError (Option Cell) :=
  if (r "title").isNone then
    match r "uri" with
    | some (Cell.str u) =>
      match extractLastSegment u with
      | some seg => .ok (some (Cell.str ⟨joinSpaces (splitChar '-' seg.data)⟩))
      | none => .error PyError.attributeError
    | _ => .error PyError.attributeError
  else .ok (r "title")

/-- Source: _fill_nan_data — the title column is rewritten so that
masked (missing-title) rows receive the repaired slug and unmasked
rows keep their current value, mirroring the row-aligned
df.loc[mask, 'title'] assignment; df['title'] and df[mask]['uri']
raise KeyError when those columns are absent. -/
def _fill_nan_data (df : DataFrame) : Except PyError DataFrame :=
  if df.cols.contains "title" then
    if df.cols.contains "uri" then
      match mapME repairTitle df.rows with
      | .ok vals => .ok (df.setColumn "title" vals)
      | .error e => .error e
    else .error PyError.keyError
  else .error PyError.keyError

/-- Per-row body of _generate_uids_for_rows:
hashlib.md5(row['uri'].encode()).hexdigest(); row['uri'] raises
KeyError when the column is absent and .encode raises on NaN. -/
def uidCell (cols : List String) (r : Row) : Except PyError (Option Cell) :=
  if cols.contains "uri" then
    match r "uri" with
    | some (Cell.str u) => .ok (some (Cell.str (md5Hex (utf8Encode u))))
    | _ => .error PyError.attributeError
  else .error PyError.keyError

/-- Source: _generate_uids_for_rows — df['uid'] = md5 hex digests of
the uri; then df.set_index('uid'). -/
def _generate_uids_for_rows (df : DataFrame) : Except PyError DataFrame :=
  match mapME (uidCell df.cols) df.rows with
  | .ok uids => .ok ((df.setColumn "uid" uids).set_index "uid")
  | .error e => .error e

/-- Per-row body of _remove_new_lines_from_body: list(body), replace
'\n' by the empty string letter-wise, join.  list(...) raises
TypeError on a NaN or non-string body; row['body'] raises KeyError
when the column is absent. -/
def bodyCell (cols : List String) (r : Row) : Except PyError (Option Cell) :=
  if cols.contains "body" then
    match r "body" with
    | some (Cell.str b) =>
      .ok (some (Cell.str ⟨List.flatten (b.data.map (fun letter => if letter == '\n' then [] else [letter]))⟩))
    | _ => .error PyError.typeError
  else .error PyError.keyError

/-- Source: _remove_new_lines_from_body — df['body'] rewritten with
every newline character removed. -/
def _remove_new_lines_from_body (df : DataFrame) : Except PyError DataFrame :=
  match mapME (bodyCell df.cols) df.rows with
  | .ok vals => .ok (df.setColumn "body" vals)
  | .error e => .error e

/-- Token count of one text: word_tokenize, keep isalpha tokens, lower
them, drop stopwords, take the length (lines 103-110 of the source). -/
def countTokens (tok : String → List String) (stop_words : List String) (text : String) : Nat :=
  ((((tok text).filter pyIsAlpha).map String.toLower).filter
    (fun word => !(stop_words.contains word))).length

/-- Per-row body of _tokenize_column: rows surviving df.dropna() (no
NaN in any column) get the token count of their target cell; dropped
rows receive no value (the later column assignment aligns on the
surviving index).  word_tokenize raises on a non-string cell and
row[column_name] raises KeyError when the column is absent. -/
def tokenCell (tok : String → List String) (stop_words : List String)
    (cols : List String) (column_name : String) (r : Row) : Except PyError (Option Cell) :=
  if hasNoNa cols r then
    if cols.contains column_name then
      match r column_name with
      | some (Cell.str text) => .ok (some (Cell.nat (countTokens tok stop_words text)))
      | some (Cell.nat _) => .error PyError.typeError
      | none => .error PyError.keyError
    else .error PyError.keyError
  else .ok none

/-- Source: _tokenize_column — df['n_tokens_<col>'] = the counts of the
dropna() survivors; every other row is left NaN in the new column. -/
def _tokenize_column (tok : String → List String) (stop_words : List String)
    (df : DataFrame) (column_name : String) : Except PyError DataFrame :=
  match mapME (tokenCell tok stop_words df.cols column_name) df.rows with
  | .ok vals => .ok (df.setColumn (String.append "n_tokens_" column_name) vals)
  | .error e => .error e

/-- Source: main — the stage sequence of lines 19-28 (reading is
external: df0 is the loaded table; the tokenizer and stopword set are
the external nltk collaborators).  Named pipelineMain because Lean
reserves the name main for the executable entry point. -/
def pipelineMain (tok : String → List String) (stop_words : List String)
    (filename : String) (df0 : DataFrame) : Except PyError DataFrame :=
  match _extract_host (_add_newspaper_uid_column df0 (_extract_newspaper_uid filename)) with
  | .error e => .error e
  | .ok df2 =>
    match _fill_nan_data df2 with
    | .error e => .error e
    | .ok df3 =>
      match _generate_uids_for_rows df3 with
      | .error e => .error e
      | .ok df4 =>
        match _remove_new_lines_from_body df4 with
        | .error e => .error e
        | .ok df5 =>
          match _tokenize_column tok stop_words df5 "title" with
          | .error e => .error e
          | .ok df6 => _tokenize_column tok stop_words df6 "body"

/- ---------- projections used to state concrete evaluations ---------- -/

/-- Did a stage succeed (no exception)? -/
def stageOk : Except PyError DataFrame → Bool
  | .ok _ => true
  | .error _ => false

/-- The exception a stage raised, if any. -/
def errorOf : Except PyError DataFrame → Option PyError
  | .error e => some e
  | .ok _ => none

/-- The cell at row i, column c of a stage result (`none` when the
stage raised). -/
def cellOf (e : Except PyError DataFrame) (i : Nat) (c : String) : Option (Option Cell) :=
  match e with
  | .ok d => some (rowAt d i c)
  | .error _ => none

/-- Is this cell a present string? -/
def isStrCell : Option Cell → Bool
  | some (Cell.str _) => true
  | _ => false

/- ---------- concrete tables used in witnesses and counterexamples ---------- -/

/-- A row given by an association list (absent keys are NaN). -/
def mkRow (l : List (String × Cell)) : Row :=
  fun c => l.lookup c

/-- A concrete stand-in for the external word tokenizer: the whole text
is one token. -/
def wTok : String → List String := fun s => [s]

def cDf1 : DataFrame :=
  ⟨["title", "body"], [Label.pos 0], [mkRow [("body", Cell.str "x")]]⟩

def cDfA : DataFrame :=
  ⟨["title", "body"], [Label.pos 0], [mkRow [("title", Cell.str "t"), ("body", Cell.str "x")]]⟩

def cDfB : DataFrame :=
  ⟨["title", "body"], [Label.pos 0], [mkRow [("body", Cell.str "x")]]⟩

def w1df : DataFrame :=
  ⟨["title", "body"], [Label.pos 0, Label.pos 1],
   [mkRow [("title", Cell.str "t"), ("body", Cell.str "x")], mkRow [("body", Cell.str "z")]]⟩

def w2adf : DataFrame :=
  ⟨["title", "body"], [Label.pos 0], [mkRow [("title", Cell.str "t1"), ("body", Cell.str "x")]]⟩

def w2bdf : DataFrame :=
  ⟨["title", "body"], [Label.pos 0], [mkRow [("title", Cell.str "t2"), ("body", Cell.str "x")]]⟩

def w3df : DataFrame :=
  ⟨["uri"], [Label.pos 0], [mkRow [("uri", Cell.str "a")]]⟩

def c4df : DataFrame :=
  ⟨["uri", "title"], [Label.pos 0], [mkRow [("uri", Cell.str "http://example.com/")]]⟩

def w5df : DataFrame :=
  ⟨["body"], [Label.pos 0, Label.pos 1],
   [mkRow [("body", Cell.str "")], mkRow [("body", Cell.str "a\nb")]]⟩

def w6df : DataFrame :=
  ⟨["uri", "title"], [Label.pos 0, Label.pos 1],
   [mkRow [("uri", Cell.str "http://x/a-b-c")], mkRow [("uri", Cell.str "u"), ("title", Cell.str "keep")]]⟩

def w7df : DataFrame :=
  ⟨["uri"], [Label.pos 0], [mkRow [("uri", Cell.str "u")]]⟩

def cDf8 : DataFrame :=
  ⟨["uri"], [Label.pos 0], [mkRow [("uri", Cell.str "http://[::1")]]⟩

def w8df : DataFrame :=
  ⟨["uri"], [Label.pos 0, Label.pos 1],
   [mkRow [("uri", Cell.str "http://ex.com/p")], mkRow [("uri", Cell.str "nota url")]]⟩

def w9df : DataFrame :=
  ⟨["uri", "title", "body"], [Label.pos 0],
   [mkRow [("uri", Cell.str "http://ex.com/a-b"), ("body", Cell.str "p\nq")]]⟩

/- ---------- basic lemmas about the model ---------- -/

theorem setCell_self (r : Row) (c : String) (v : Option Cell) : (r.setCell c v) c = v := by
  simp [Row.setCell]

theorem setCell_other (r : Row) (c c' : String) (v : Option Cell) (h : ¬(c' = c)) :
    (r.setCell c v) c' = r c' := by
  simp [Row.setCell, h]

theorem applyCol_length (c : String) (rs : List Row) :
    ∀ vs : List (Option Cell), (applyCol c rs vs).length = rs.length := by
  induction rs with
  | nil => intro vs; rfl
  | cons r rs ih =>
    intro vs
    cases vs with
    | nil => rfl
    | cons v vs => simp [applyCol, ih]

theorem applyCol_getD_other (c c' : String) (h : ¬(c' = c)) (rs : List Row) :
    ∀ (vs : List (Option Cell)) (i : Nat),
      ((applyCol c rs vs).getD i emptyRow) c' = (rs.getD i emptyRow) c' := by
  induction rs with
  | nil => intro vs i; rfl
  | cons r rs ih =>
    intro vs i
    cases vs with
    | nil => rfl
    | cons v vs =>
      cases i with
      | zero => simpa [applyCol] using setCell_other r c c' v h
      | succ i => simpa [applyCol] using ih vs i

theorem applyCol_getD_self (c : String) (rs : List Row) :
    ∀ (vs : List (Option Cell)) (i : Nat), i < rs.length → i < vs.length →
      ((applyCol c rs vs).getD i emptyRow) c = vs.getD i none := by
  induction rs with
  | nil => intro vs i hi; exact absurd hi (by simp)
  | cons r rs ih =>
    intro vs i hi hv
    cases vs with
    | nil => exact absurd hv (by simp)
    | cons v vs =>
      cases i with
      | zero => simpa [applyCol] using setCell_self r c v
      | succ i =>
        simpa [applyCol] using ih vs i (Nat.lt_of_succ_lt_succ hi) (Nat.lt_of_succ_lt_succ hv)

theorem mapME_cons (g : Row → Except PyError (Option Cell)) (r : Row) (rs : List Row)
    (vs : List (Option Cell)) (h : mapME g (r :: rs) = .ok vs) :
    ∃ v vs', g r = .ok v ∧ mapME g rs = .ok vs' ∧ vs = v :: vs' := by
  unfold mapME at h
  cases hg : g r with
  | error e => rw [hg] at h; exact Except.noConfusion h
  | ok v =>
    rw [hg] at h
    cases hm : mapME g rs with
    | error e => rw [hm] at h; exact Except.noConfusion h
    | ok vs' =>
      rw [hm] at h
      exact ⟨v, vs', rfl, rfl, (Except.ok.inj h).symm⟩

theorem mapME_length (g : Row → Except PyError (Option Cell)) :
    ∀ (rs : List Row) (vs : List (Option Cell)), mapME g rs = .ok vs → vs.length = rs.length := by
  intro rs
  induction rs with
  | nil =>
    intro vs h
    unfold mapME at h
    rw [← Except.ok.inj h]
    rfl
  | cons r rs ih =>
    intro vs h
    obtain ⟨v, vs', _, hm, rfl⟩ := mapME_cons g r rs vs h
    simp [ih vs' hm]

theorem mapME_getD (g : Row → Except PyError (Option Cell)) :
    ∀ (rs : List Row) (vs : List (Option Cell)), mapME g rs = .ok vs →
      ∀ i, i < rs.length → g (rs.getD i emptyRow) = .ok (vs.getD i none) := by
  intro rs
  induction rs with
  | nil => intro vs h i hi; exact absurd hi (by simp)
  | cons r rs ih =>
    intro vs h i hi
    obtain ⟨v, vs', hg, hm, rfl⟩ := mapME_cons g r rs vs h
    cases i with
    | zero => simpa using hg
    | succ i => simpa using ih vs' hm i (Nat.lt_of_succ_lt_succ hi)

theorem mapME_ok_of_all (g : Row → Except PyError (Option Cell)) :
    ∀ rs : List Row, (∀ r ∈ rs, ∃ v, g r = .ok v) → ∃ vs, mapME g rs = .ok vs := by
  intro rs
  induction rs with
  | nil => intro _; exact ⟨[], rfl⟩
  | cons r rs ih =>
    intro hall
    obtain ⟨v, hv⟩ := hall r (by simp)
    obtain ⟨vs, hvs⟩ := ih (fun r' hr' => hall r' (by simp [hr']))
    refine ⟨v :: vs, ?_⟩
    unfold mapME
    rw [hv, hvs]

theorem stageOk_iff (e : Except PyError DataFrame) : stageOk e = true ↔ ∃ d, e = .ok d := by
  cases e <;> simp [stageOk]

theorem map_setCellNone_getD (c c' : String) (h : ¬(c' = c)) (rs : List Row) :
    ∀ i : Nat, ((rs.map (fun r => Row.setCell r c none)).getD i emptyRow) c' =
      (rs.getD i emptyRow) c' := by
  induction rs with
  | nil => intro i; rfl
  | cons r rs ih =>
    intro i
    cases i with
    | zero => simpa using setCell_other r c c' none h
    | succ i => simpa using ih i

theorem map_labelOf_getD (c : String) (rs : List Row) :
    ∀ i : Nat, i < rs.length →
      (rs.map (fun r => labelOf (r c))).getD i Label.na = labelOf ((rs.getD i emptyRow) c) := by
  induction rs with
  | nil => intro i hi; exact absurd hi (by simp)
  | cons r rs ih =>
    intro i hi
    cases i with
    | zero => rfl
    | succ i => simpa using ih i (Nat.lt_of_succ_lt_succ hi)

theorem map_const_getD (v : Option Cell) (rs : List Row) :
    ∀ i : Nat, i < rs.length → (rs.map (fun _ => v)).getD i none = v := by
  induction rs with
  | nil => intro i hi; exact absurd hi (by simp)
  | cons r rs ih =>
    intro i hi
    cases i with
    | zero => rfl
    | succ i => simpa using ih i (Nat.lt_of_succ_lt_succ hi)

theorem getD_mem (rs : List Row) (i : Nat) (hi : i < rs.length) : rs.getD i emptyRow ∈ rs := by
  rw [List.getD_eq_getElem rs emptyRow hi]
  exact List.getElem_mem hi

/- ---------- lemmas about the Python string primitives ---------- -/

theorem splitChar_ne_nil (sep : Char) : ∀ cs : List Char, splitChar sep cs ≠ [] := by
  intro cs
  induction cs with
  | nil => simp [splitChar]
  | cons c cs ih =>
    unfold splitChar
    split
    · simp
    · split
      · simp
      · simp

theorem splitChar_headD (sep : Char) :
    ∀ cs : List Char, (splitChar sep cs).headD [] = cs.takeWhile (fun c => !(c == sep)) := by
  intro cs
  induction cs with
  | nil => rfl
  | cons c cs ih =>
    by_cases hc : c = sep
    · subst hc
      simp [splitChar, List.takeWhile_cons]
    · rw [splitChar, if_neg hc]
      cases hsp : splitChar sep cs with
      | nil => exact absurd hsp (splitChar_ne_nil sep cs)
      | cons t ts =>
        have ht : t = cs.takeWhile (fun c => !(c == sep)) := by
          rw [← ih, hsp]
          rfl
        simp [List.takeWhile_cons, hc, ht]

theorem takeWhile_of_not_contains (a : Char) :
    ∀ cs : List Char, cs.contains a = false → cs.takeWhile (fun c => !(c == a)) = cs := by
  intro cs
  induction cs with
  | nil => intro _; rfl
  | cons c cs ih =>
    intro h
    simp only [List.contains_cons, Bool.or_eq_false_iff] at h
    have hc : ¬(c = a) := by
      intro hca
      subst hca
      simp at h
    simp [List.takeWhile_cons, hc, ih (by simpa using h.2)]

theorem joinSpaces_splitChar :
    ∀ cs : List Char, joinSpaces (splitChar '-' cs) = cs.map (fun c => if c = '-' then ' ' else c) := by
  intro cs
  induction cs with
  | nil => rfl
  | cons c cs ih =>
    by_cases hc : c = '-'
    · subst hc
      rw [splitChar, if_pos rfl]
      cases hsp : splitChar '-' cs with
      | nil => exact absurd hsp (splitChar_ne_nil _ cs)
      | cons t ts =>
        show joinSpaces ([] :: t :: ts) = _
        have : joinSpaces (t :: ts) = cs.map (fun c => if c = '-' then ' ' else c) := by
          rw [← ih, hsp]
        simp [joinSpaces, this]
    · rw [splitChar, if_neg hc]
      cases hsp : splitChar '-' cs with
      | nil => exact absurd hsp (splitChar_ne_nil _ cs)
      | cons t ts =>
        cases ts with
        | nil =>
          have ht : t = cs.map (fun c => if c = '-' then ' ' else c) := by
            rw [← ih, hsp]
            rfl
          simp [joinSpaces, hc, ht]
        | cons t2 ts2 =>
          have : joinSpaces (t :: t2 :: ts2) = cs.map (fun c => if c = '-' then ' ' else c) := by
            rw [← ih, hsp]
          simp only [joinSpaces, List.map_cons, if_neg hc]
          rw [← this]
          simp [joinSpaces]

theorem flatten_replaceLF :
    ∀ cs : List Char,
      List.flatten (cs.map (fun letter => if letter == '\n' then [] else [letter])) =
        cs.filter (fun c => !(c == '\n')) := by
  intro cs
  induction cs with
  | nil => rfl
  | cons c cs ih =>
    rw [List.map_cons, List.flatten_cons, List.filter_cons, ih]
    cases hc : (c == '\n') with
    | true => simp
    | false => simp

theorem not_mem_filterLF (cs : List Char) : '\n' ∉ cs.filter (fun c => !(c == '\n')) := by
  intro h
  rcases List.mem_filter.mp h with ⟨_, hb⟩
  simp at hb

theorem string_mk_data (s : String) : String.mk s.data = s := rfl

/- ---------- inversion of the pipeline stages on success ---------- -/

theorem extract_host_ok (df d : DataFrame) (h : _extract_host df = .ok d) :
    df.cols.contains "uri" = true ∧
      ∃ vals, mapME hostCell df.rows = .ok vals ∧ d = df.setColumn "host" vals := by
  unfold _extract_host at h
  split at h
  · rename_i hc
    split at h
    · rename_i vals hm
      exact ⟨hc, vals, hm, (Except.ok.inj h).symm⟩
    · exact Except.noConfusion h
  · exact Except.noConfusion h

theorem fill_nan_ok (df d : DataFrame) (h : _fill_nan_data df = .ok d) :
    df.cols.contains "title" = true ∧ df.cols.contains "uri" = true ∧
      ∃ vals, mapME repairTitle df.rows = .ok vals ∧ d = df.setColumn "title" vals := by
  unfold _fill_nan_data at h
  split at h
  · rename_i ht
    split at h
    · rename_i hu
      split at h
      · rename_i vals hm
        exact ⟨ht, hu, vals, hm, (Except.ok.inj h).symm⟩
      · exact Except.noConfusion h
    · exact Except.noConfusion h
  · exact Except.noConfusion h

theorem generate_uids_ok (df d : DataFrame) (h : _generate_uids_for_rows df = .ok d) :
    ∃ uids, mapME (uidCell df.cols) df.rows = .ok uids ∧
      d = (df.setColumn "uid" uids).set_index "uid" := by
  unfold _generate_uids_for_rows at h
  split at h
  · rename_i uids hm
    exact ⟨uids, hm, (Except.ok.inj h).symm⟩
  · exact Except.noConfusion h

theorem remove_newlines_ok (df d : DataFrame) (h : _remove_new_lines_from_body df = .ok d) :
    ∃ vals, mapME (bodyCell df.cols) df.rows = .ok vals ∧ d = df.setColumn "body" vals := by
  unfold _remove_new_lines_from_body at h
  split at h
  · rename_i vals hm
    exact ⟨vals, hm, (Except.ok.inj h).symm⟩
  · exact Except.noConfusion h

theorem tokenize_ok (tok : String → List String) (stop_words : List String)
    (df : DataFrame) (column_name : String) (d : DataFrame)
    (h : _tokenize_column tok stop_words df column_name = .ok d) :
    ∃ vals, mapME (tokenCell tok stop_words df.cols column_name) df.rows = .ok vals ∧
      d = df.setColumn (String.append "n_tokens_" column_name) vals := by
  unfold _tokenize_column at h
  split at h
  · rename_i vals hm
    exact ⟨vals, hm, (Except.ok.inj h).symm⟩
  · exact Except.noConfusion h

/- ---------- length and frame lemmas per stage ---------- -/

theorem setColumn_length (df : DataFrame) (c : String) (vals : List (Option Cell)) :
    (df.setColumn c vals).rows.length = df.rows.length :=
  applyCol_length c df.rows vals

theorem setColumn_rowAt_other (df : DataFrame) (c c' : String) (vals : List (Option Cell))
    (i : Nat) (h : ¬(c' = c)) : rowAt (df.setColumn c vals) i c' = rowAt df i c' :=
  applyCol_getD_other c c' h df.rows vals i

theorem setColumn_rowAt_self (df : DataFrame) (c : String) (vals : List (Option Cell))
    (i : Nat) (hi : i < df.rows.length) (hv : i < vals.length) :
    rowAt (df.setColumn c vals) i c = vals.getD i none :=
  applyCol_getD_self c df.rows vals i hi hv

theorem set_index_length (df : DataFrame) (c : String) :
    (df.set_index c).rows.length = df.rows.length := by
  simp [DataFrame.set_index]

theorem set_index_rowAt_other (df : DataFrame) (c c' : String) (i : Nat) (h : ¬(c' = c)) :
    rowAt (df.set_index c) i c' = rowAt df i c' :=
  map_setCellNone_getD c c' h df.rows i

theorem add_col_length (df : DataFrame) (uid : String) :
    (_add_newspaper_uid_column df uid).rows.length = df.rows.length :=
  setColumn_length df "newspaper_uid" _

theorem add_col_rowAt_other (df : DataFrame) (uid : String) (c' : String) (i : Nat)
    (h : ¬(c' = "newspaper_uid")) :
    rowAt (_add_newspaper_uid_column df uid) i c' = rowAt df i c' :=
  setColumn_rowAt_other df "newspaper_uid" c' _ i h

theorem extract_host_length (df d : DataFrame) (h : _extract_host df = .ok d) :
    d.rows.length = df.rows.length := by
  obtain ⟨-, vals, -, rfl⟩ := extract_host_ok df d h
  exact setColumn_length df "host" vals

theorem extract_host_rowAt_other (df d : DataFrame) (h : _extract_host df = .ok d)
    (c' : String) (hc : ¬(c' = "host")) (i : Nat) : rowAt d i c' = rowAt df i c' := by
  obtain ⟨-, vals, -, rfl⟩ := extract_host_ok df d h
  exact setColumn_rowAt_other df "host" c' vals i hc

theorem fill_nan_length (df d : DataFrame) (h : _fill_nan_data df = .ok d) :
    d.rows.length = df.rows.length := by
  obtain ⟨-, -, vals, -, rfl⟩ := fill_nan_ok df d h
  exact setColumn_length df "title" vals

theorem fill_nan_rowAt_other (df d : DataFrame) (h : _fill_nan_data df = .ok d)
    (c' : String) (hc : ¬(c' = "title")) (i : Nat) : rowAt d i c' = rowAt df i c' := by
  obtain ⟨-, -, vals, -, rfl⟩ := fill_nan_ok df d h
  exact setColumn_rowAt_other df "title" c' vals i hc

theorem generate_uids_length (df d : DataFrame) (h : _generate_uids_for_rows df = .ok d) :
    d.rows.length = df.rows.length := by
  obtain ⟨uids, -, rfl⟩ := generate_uids_ok df d h
  rw [set_index_length]
  exact setColumn_length df "uid" uids

theorem generate_uids_rowAt_other (df d : DataFrame) (h : _generate_uids_for_rows df = .ok d)
    (c' : String) (hc : ¬(c' = "uid")) (i : Nat) : rowAt d i c' = rowAt df i c' := by
  obtain ⟨uids, -, rfl⟩ := generate_uids_ok df d h
  rw [set_index_rowAt_other _ "uid" c' i hc]
  exact setColumn_rowAt_other df "uid" c' uids i hc

theorem remove_newlines_length (df d : DataFrame) (h : _remove_new_lines_from_body df = .ok d) :
    d.rows.length = df.rows.length := by
  obtain ⟨vals, -, rfl⟩ := remove_newlines_ok df d h
  exact setColumn_length df "body" vals

theorem remove_newlines_rowAt_other (df d : DataFrame) (h : _remove_new_lines_from_body df = .ok d)
    (c' : String) (hc : ¬(c' = "body")) (i : Nat) : rowAt d i c' = rowAt df i c' := by
  obtain ⟨vals, -, rfl⟩ := remove_newlines_ok df d h
  exact setColumn_rowAt_other df "body" c' vals i hc

theorem tokenize_length (tok : String → List String) (stop_words : List String)
    (df : DataFrame) (column_name : String) (d : DataFrame)
    (h : _tokenize_column tok stop_words df column_name = .ok d) :
    d.rows.length = df.rows.length := by
  obtain ⟨vals, -, rfl⟩ := tokenize_ok tok stop_words df column_name d h
  exact setColumn_length df _ vals

theorem tokenize_rowAt_other (tok : String → List String) (stop_words : List String)
    (df : DataFrame) (column_name : String) (d : DataFrame)
    (h : _tokenize_column tok stop_words df column_name = .ok d)
    (c' : String) (hc : ¬(c' = String.append "n_tokens_" column_name)) (i : Nat) :
    rowAt d i c' = rowAt df i c' := by
  obtain ⟨vals, -, rfl⟩ := tokenize_ok tok stop_words df column_name d h
  exact setColumn_rowAt_other df _ c' vals i hc

/- ---------- inversion of the whole pipeline on success ---------- -/

theorem pipelineMain_ok (tok : String → List String) (stop_words : List String)
    (filename : String) (df0 d : DataFrame)
    (h : pipelineMain tok stop_words filename df0 = .ok d) :
    ∃ df2 df3 df4 df5 df6,
      _extract_host (_add_newspaper_uid_column df0 (_extract_newspaper_uid filename)) = .ok df2 ∧
      _fill_nan_data df2 = .ok df3 ∧
      _generate_uids_for_rows df3 = .ok df4 ∧
      _remove_new_lines_from_body df4 = .ok df5 ∧
      _tokenize_column tok stop_words df5 "title" = .ok df6 ∧
      _tokenize_column tok stop_words df6 "body" = .ok d := by
  unfold pipelineMain at h
  split at h
  · exact Except.noConfusion h
  · rename_i df2 h1
    split at h
    · exact Except.noConfusion h
    · rename_i df3 h2
      split at h
      · exact Except.noConfusion h
      · rename_i df4 h3
        split at h
        · exact Except.noConfusion h
        · rename_i df5 h4
          split at h
          · exact Except.noConfusion h
          · rename_i df6 h5
            exact ⟨df2, df3, df4, df5, df6, h1, h2, h3, h4, h5, h⟩

/- ---------- characterization of _tokenize_column on success ---------- -/

theorem tokenize_spec (tok : String → List String) (stop_words : List String)
    (df : DataFrame) (column_name : String) (d : DataFrame)
    (h : _tokenize_column tok stop_words df column_name = .ok d) :
    d.rows.length = df.rows.length ∧
    ∀ i, i < df.rows.length →
      (hasNoNa df.cols (rowAt df i) = true →
        ∃ t, rowAt df i column_name = some (Cell.str t) ∧
          rowAt d i (String.append "n_tokens_" column_name) =
            some (Cell.nat (countTokens tok stop_words t))) ∧
      (hasNoNa df.cols (rowAt df i) = false →
        rowAt d i (String.append "n_tokens_" column_name) = none) := by
  obtain ⟨vals, hm, rfl⟩ := tokenize_ok tok stop_words df column_name d h
  have hlen := mapME_length _ df.rows vals hm
  refine ⟨setColumn_length df _ vals, fun i hi => ?_⟩
  have hg : tokenCell tok stop_words df.cols column_name (rowAt df i) = .ok (vals.getD i none) :=
    mapME_getD _ df.rows vals hm i hi
  have hself : rowAt (df.setColumn (String.append "n_tokens_" column_name) vals) i
      (String.append "n_tokens_" column_name) = vals.getD i none :=
    setColumn_rowAt_self df _ vals i hi (hlen ▸ hi)
  constructor
  · intro hs
    have hg' := hg
    unfold tokenCell at hg'
    split at hg'
    · split at hg'
      · split at hg'
        · rename_i t hcell
          exact ⟨t, hcell, by rw [hself, ← Except.ok.inj hg']⟩
        all_goals exact Except.noConfusion hg'
      · exact Except.noConfusion hg'
    · rename_i hna
      exact absurd (show hasNoNa df.cols (rowAt df i) = true from hs) hna
  · intro hs
    have hg' := hg
    unfold tokenCell at hg'
    split at hg'
    · rename_i hna
      have hs' : hasNoNa df.cols (rowAt df i) = false := hs
      rw [hna] at hs'
      exact Bool.noConfusion hs'
    · rw [hself, ← Except.ok.inj hg']

/- ---------- Claim C1 ---------- -/

/-- C1 counterexample: a row whose body is present but whose title is
missing receives no value in the n_tokens_body column even though its
target field (body) is present, because dropna() removes the row for a
NaN in any column - refuting the claim that only the target field
decides whether a row gets a count. -/
theorem C1_counterexample :
    rowAt cDf1 0 "body" = some (Cell.str "x") ∧
    cellOf (_tokenize_column wTok [] cDf1 "body") 0 "n_tokens_body" = some none := by
  decide

/-- C1 as amended: a row receives the count column value
n_tokens_column (counting the tokens of the target text that are
purely alphabetic, lower-cased and not stopwords) exactly when no
field of the row, in any column of the table, is missing; a row with
any missing field - not only a missing target field - receives no
value. -/
theorem C1_tokenizer_counts (tok : String → List String) (stop_words : List String)
    (df : DataFrame) (column_name : String) (d : DataFrame)
    (h : _tokenize_column tok stop_words df column_name = .ok d) :
    d.rows.length = df.rows.length ∧
    ∀ i, i < df.rows.length →
      (hasNoNa df.cols (rowAt df i) = true →
        ∃ t, rowAt df i column_name = some (Cell.str t) ∧
          rowAt d i (String.append "n_tokens_" column_name) =
            some (Cell.nat (countTokens tok stop_words t))) ∧
      (hasNoNa df.cols (rowAt df i) = false →
        rowAt d i (String.append "n_tokens_" column_name) = none) :=
  tokenize_spec tok stop_words df column_name d h

/-- C1 witness: on a concrete two-row table, the complete row gets its
token count and the row with a missing title gets no n_tokens_body
value. -/
theorem C1_tokenizer_counts_witness :
    ∃ d, _tokenize_column wTok [] w1df "body" = .ok d ∧
      (∃ t, rowAt w1df 0 "body" = some (Cell.str t) ∧
        rowAt d 0 (String.append "n_tokens_" "body") =
          some (Cell.nat (countTokens wTok [] t))) ∧
      rowAt d 1 (String.append "n_tokens_" "body") = none := by
  obtain ⟨d, hd⟩ := (stageOk_iff (_tokenize_column wTok [] w1df "body")).mp (by decide)
  have hs := (C1_tokenizer_counts wTok [] w1df "body" d hd).2
  exact ⟨d, hd, (hs 0 (by decide)).1 (by decide), (hs 1 (by decide)).2 (by decide)⟩

/- ---------- Claim C2 ---------- -/

/-- C2 counterexample: two tables that agree on the body column and
differ only in the title column (present title versus missing title)
do not produce identical n_tokens_body values: the missing title drags
the row out of dropna() for the body count as well. -/
theorem C2_counterexample :
    rowAt cDfA 0 "body" = rowAt cDfB 0 "body" ∧
    cellOf (_tokenize_column wTok [] cDfA "body") 0 "n_tokens_body" =
      some (some (Cell.nat 1)) ∧
    cellOf (_tokenize_column wTok [] cDfB "body") 0 "n_tokens_body" = some none := by
  decide

/-- C2 as amended: the count value itself is free of cross-interference
- whenever a row survives dropna() in both tables and the two tables
agree on the target cell of that row, the produced counts agree - but
whether a row receives a value at all depends on the presence of every
column of the row, so tables differing only in the title column can
differ in which rows carry an n_tokens_body value. -/
theorem C2_tokenizer_noninterference (tok : String → List String) (stop_words : List String)
    (df1 df2 : DataFrame) (column_name : String) (d1 d2 : DataFrame) (i : Nat)
    (h1 : _tokenize_column tok stop_words df1 column_name = .ok d1)
    (h2 : _tokenize_column tok stop_words df2 column_name = .ok d2)
    (hi1 : i < df1.rows.length) (hi2 : i < df2.rows.length)
    (hcell : rowAt df1 i column_name = rowAt df2 i column_name)
    (hs1 : hasNoNa df1.cols (rowAt df1 i) = true)
    (hs2 : hasNoNa df2.cols (rowAt df2 i) = true) :
    rowAt d1 i (String.append "n_tokens_" column_name) =
      rowAt d2 i (String.append "n_tokens_" column_name) := by
  obtain ⟨t1, ht1, hv1⟩ := ((tokenize_spec tok stop_words df1 column_name d1 h1).2 i hi1).1 hs1
  obtain ⟨t2, ht2, hv2⟩ := ((tokenize_spec tok stop_words df2 column_name d2 h2).2 i hi2).1 hs2
  rw [hv1, hv2]
  rw [ht1, ht2] at hcell
  rw [Cell.str.inj (Option.some.inj hcell)]

/-- C2 witness: two concrete one-row tables with different titles and
the same body yield equal n_tokens_body values. -/
theorem C2_tokenizer_noninterference_witness :
    ∃ d1 d2, _tokenize_column wTok [] w2adf "body" = .ok d1 ∧
      _tokenize_column wTok [] w2bdf "body" = .ok d2 ∧
      rowAt d1 0 (String.append "n_tokens_" "body") =
        rowAt d2 0 (String.append "n_tokens_" "body") := by
  obtain ⟨d1, hd1⟩ := (stageOk_iff (_tokenize_column wTok [] w2adf "body")).mp (by decide)
  obtain ⟨d2, hd2⟩ := (stageOk_iff (_tokenize_column wTok [] w2bdf "body")).mp (by decide)
  exact ⟨d1, d2, hd1, hd2,
    C2_tokenizer_noninterference wTok [] w2adf w2bdf "body" d1 d2 0 hd1 hd2
      (by decide) (by decide) (by decide) (by decide) (by decide)⟩

/- ---------- Claim C3 ---------- -/

set_option maxRecDepth 40000 in
/-- MD5 sanity check against the reference test vector. -/
theorem md5Hex_vector_a : md5Hex (utf8Encode "a") = "0cc175b9c0f1b6a831c399e269772661" := by
  decide

/-- C3: on success, RowIdentifier gives every row the index label
md5-hex of the UTF-8 bytes of its uri (so the table is re-keyed by
content rather than position), and rows with equal uris receive equal
labels (uid is a pure function of uri alone). -/
theorem C3_row_identifier (df d : DataFrame) (h : _generate_uids_for_rows df = .ok d) :
    (∀ i, i < df.rows.length →
      ∃ u, rowAt df i "uri" = some (Cell.str u) ∧
        d.index.getD i Label.na = Label.key (md5Hex (utf8Encode u))) ∧
    (∀ i j, i < df.rows.length → j < df.rows.length →
      rowAt df i "uri" = rowAt df j "uri" →
      d.index.getD i Label.na = d.index.getD j Label.na) := by
  obtain ⟨uids, hm, rfl⟩ := generate_uids_ok df d h
  have hlen := mapME_length _ df.rows uids hm
  have hpart : ∀ i, i < df.rows.length →
      ∃ u, rowAt df i "uri" = some (Cell.str u) ∧
        ((df.setColumn "uid" uids).set_index "uid").index.getD i Label.na =
          Label.key (md5Hex (utf8Encode u)) := by
    intro i hi
    have hg : uidCell df.cols (rowAt df i) = .ok (uids.getD i none) :=
      mapME_getD _ df.rows uids hm i hi
    unfold uidCell at hg
    split at hg
    · split at hg
      · rename_i u hcell
        refine ⟨u, hcell, ?_⟩
        have hi' : i < (df.setColumn "uid" uids).rows.length := by
          rw [setColumn_length]
          exact hi
        show ((df.setColumn "uid" uids).rows.map (fun r => labelOf (r "uid"))).getD i Label.na = _
        rw [map_labelOf_getD "uid" _ i hi']
        have hu : ((df.setColumn "uid" uids).rows.getD i emptyRow) "uid" = uids.getD i none :=
          setColumn_rowAt_self df "uid" uids i hi (hlen ▸ hi)
        rw [hu, ← Except.ok.inj hg]
        rfl
      all_goals exact Except.noConfusion hg
    · exact Except.noConfusion hg
  refine ⟨hpart, fun i j hi hj huri => ?_⟩
  obtain ⟨ui, hui, hixi⟩ := hpart i hi
  obtain ⟨uj, huj, hixj⟩ := hpart j hj
  rw [hixi, hixj]
  rw [hui, huj] at huri
  rw [Cell.str.inj (Option.some.inj huri)]

/-- C3 witness: on a concrete one-row table with uri "a" the stage
succeeds and the theorem yields the index label md5-hex of "a". -/
theorem C3_row_identifier_witness :
    ∃ d, _generate_uids_for_rows w3df = .ok d ∧
      ∃ u, rowAt w3df 0 "uri" = some (Cell.str u) ∧
        d.index.getD 0 Label.na = Label.key (md5Hex (utf8Encode u)) := by
  obtain ⟨d, hd⟩ := (stageOk_iff (_generate_uids_for_rows w3df)).mp (by decide)
  exact ⟨d, hd, (C3_row_identifier w3df d hd).1 0 (by decide)⟩

/- ---------- Claim C4 ---------- -/

/-- C4 failing input: on a table whose single row has a missing title
and the uri "http://example.com/" (no extractable final segment),
_fill_nan_data raises AttributeError - the applymap lambda calls
.split on the NaN produced by the unmatched str.extract - instead of
leaving the title missing and completing, so the failure is fatal to
the pipeline, contradicting the claim. -/
theorem C4_title_repair_crash :
    errorOf (_fill_nan_data c4df) = some PyError.attributeError := by
  decide

/- ---------- Claim C5 ---------- -/

/-- C5: when every row's body is a present string, BodyNormalizer
raises no error (in particular an empty body is fine) and rewrites
each body to the original with exactly the newline characters removed
and every other character unchanged in order; the result contains no
newline character and is no longer than the original. -/
theorem C5_body_normalizer (df : DataFrame)
    (hcol : df.cols.contains "body" = true)
    (hb : ∀ r ∈ df.rows, isStrCell (r "body") = true) :
    ∃ d, _remove_new_lines_from_body df = .ok d ∧
      d.rows.length = df.rows.length ∧
      ∀ i, i < df.rows.length →
        ∃ b, rowAt df i "body" = some (Cell.str b) ∧
          rowAt d i "body" = some (Cell.str ⟨b.data.filter (fun c => !(c == '\n'))⟩) ∧
          '\n' ∉ b.data.filter (fun c => !(c == '\n')) ∧
          (b.data.filter (fun c => !(c == '\n'))).length ≤ b.data.length := by
  have hall : ∀ r ∈ df.rows, ∃ v, bodyCell df.cols r = .ok v := by
    intro r hr
    have hbs := hb r hr
    unfold bodyCell
    rw [if_pos hcol]
    cases hcv : r "body" with
    | none =>
      rw [hcv] at hbs
      exact absurd hbs (by simp [isStrCell])
    | some cell =>
      cases cell with
      | str b => exact ⟨_, rfl⟩
      | nat n =>
        rw [hcv] at hbs
        exact absurd hbs (by simp [isStrCell])
  obtain ⟨vals, hm⟩ := mapME_ok_of_all _ df.rows hall
  have hlen := mapME_length _ df.rows vals hm
  refine ⟨df.setColumn "body" vals, ?_, setColumn_length df "body" vals, ?_⟩
  · unfold _remove_new_lines_from_body
    rw [hm]
  · intro i hi
    have hg : bodyCell df.cols (rowAt df i) = .ok (vals.getD i none) :=
      mapME_getD _ df.rows vals hm i hi
    have hbs := hb (rowAt df i) (getD_mem df.rows i hi)
    unfold bodyCell at hg
    rw [if_pos hcol] at hg
    cases hcv : rowAt df i "body" with
    | none =>
      rw [hcv] at hbs
      exact absurd hbs (by simp [isStrCell])
    | some cell =>
      cases cell with
      | nat n =>
        rw [hcv] at hbs
        exact absurd hbs (by simp [isStrCell])
      | str b =>
        rw [hcv] at hg
        refine ⟨b, rfl, ?_, not_mem_filterLF b.data, List.length_filter_le _ b.data⟩
        rw [setColumn_rowAt_self df "body" vals i hi (hlen ▸ hi), ← Except.ok.inj hg,
          flatten_replaceLF]

/-- C5 witness: a concrete table with an empty body and a body holding
a newline; the stage succeeds and the characterization applies to the
empty-body row. -/
theorem C5_body_normalizer_witness :
    ∃ d, _remove_new_lines_from_body w5df = .ok d ∧
      d.rows.length = w5df.rows.length ∧
      ∀ i, i < w5df.rows.length →
        ∃ b, rowAt w5df i "body" = some (Cell.str b) ∧
          rowAt d i "body" = some (Cell.str ⟨b.data.filter (fun c => !(c == '\n'))⟩) ∧
          '\n' ∉ b.data.filter (fun c => !(c == '\n')) ∧
          (b.data.filter (fun c => !(c == '\n'))).length ≤ b.data.length :=
  C5_body_normalizer w5df (by decide) (by decide)

/- ---------- Claim C6 ---------- -/

/-- C6: on success of TitleRepairer, every row whose title was missing
and whose uri has a non-empty final path segment gets that segment
with each '-' replaced by a single space as its title, and every row
with a present title is left completely untouched (every column of the
row unchanged). -/
theorem C6_title_repairer (df d : DataFrame) (h : _fill_nan_data df = .ok d) :
    ∀ i, i < df.rows.length →
      (rowAt df i "title" = none →
        ∀ u seg, rowAt df i "uri" = some (Cell.str u) →
          extractLastSegment u = some seg →
          rowAt d i "title" =
            some (Cell.str ⟨seg.data.map (fun c => if c = '-' then ' ' else c)⟩)) ∧
      ((rowAt df i "title").isSome = true →
        ∀ c, rowAt d i c = rowAt df i c) := by
  obtain ⟨-, -, vals, hm, rfl⟩ := fill_nan_ok df d h
  have hlen := mapME_length _ df.rows vals hm
  intro i hi
  have hg : repairTitle (rowAt df i) = .ok (vals.getD i none) :=
    mapME_getD _ df.rows vals hm i hi
  have hself : rowAt (df.setColumn "title" vals) i "title" = vals.getD i none :=
    setColumn_rowAt_self df "title" vals i hi (hlen ▸ hi)
  constructor
  · intro htitle u seg hcuri hseg
    have hg' := hg
    unfold repairTitle at hg'
    split at hg'
    · split at hg'
      · rename_i u' hcell'
        split at hg'
        · rename_i seg' hseg'
          have huu : u' = u := by
            rw [hcuri] at hcell'
            exact (Cell.str.inj (Option.some.inj hcell')).symm
          subst huu
          have hss : seg' = seg := by
            rw [hseg] at hseg'
            exact (Option.some.inj hseg').symm
          subst hss
          rw [hself, ← Except.ok.inj hg', joinSpaces_splitChar]
        · exact Except.noConfusion hg'
      all_goals exact Except.noConfusion hg'
    · rename_i hn
      exact absurd (by rw [htitle]; rfl) hn
  · intro hsome c
    have hg' := hg
    unfold repairTitle at hg'
    split at hg'
    · rename_i hn
      cases hcv : rowAt df i "title" with
      | none =>
        rw [hcv] at hsome
        exact Bool.noConfusion hsome
      | some v =>
        have hn' : (rowAt df i "title").isNone = true := hn
        rw [hcv] at hn'
        exact Bool.noConfusion hn'
    · by_cases hcc : c = "title"
      · subst hcc
        rw [hself, ← Except.ok.inj hg']
      · exact setColumn_rowAt_other df "title" c vals i hcc

/-- C6 witness: on a concrete table, the missing-title row with uri
ending in a-b-c gets the title "a b c" and the row with title "keep"
is untouched in every column. -/
theorem C6_title_repairer_witness :
    ∃ d, _fill_nan_data w6df = .ok d ∧
      rowAt d 0 "title" = some (Cell.str "a b c") ∧
      ∀ c, rowAt d 1 c = rowAt w6df 1 c := by
  obtain ⟨d, hd⟩ := (stageOk_iff (_fill_nan_data w6df)).mp (by decide)
  have h0 := ((C6_title_repairer w6df d hd) 0 (by decide)).1 (by decide) "http://x/a-b-c"
    "a-b-c" (by decide) (by decide)
  have h1 := ((C6_title_repairer w6df d hd) 1 (by decide)).2 (by decide)
  exact ⟨d, hd, h0.trans (by decide), h1⟩

/- ---------- Claim C7 ---------- -/

/-- C7: the newspaper identifier is the segment of the filename before
its first underscore (the whole filename when it has no underscore,
the empty string for the empty filename) and the stamped
newspaper_uid column carries that single constant value on every row
of the table. -/
theorem C7_source_identifier (filename : String) (df : DataFrame) (uid : String) (i : Nat)
    (hi : i < df.rows.length) :
    _extract_newspaper_uid filename = ⟨filename.data.takeWhile (fun c => !(c == '_'))⟩ ∧
    (filename.data.contains '_' = false → _extract_newspaper_uid filename = filename) ∧
    _extract_newspaper_uid "" = "" ∧
    rowAt (_add_newspaper_uid_column df uid) i "newspaper_uid" = some (Cell.str uid) := by
  refine ⟨?_, ?_, rfl, ?_⟩
  · unfold _extract_newspaper_uid
    rw [splitChar_headD]
  · intro hnc
    unfold _extract_newspaper_uid
    rw [splitChar_headD, takeWhile_of_not_contains '_' filename.data hnc]
  · have hv : rowAt (_add_newspaper_uid_column df uid) i "newspaper_uid" =
        (df.rows.map (fun _ => some (Cell.str uid))).getD i none :=
      setColumn_rowAt_self df "newspaper_uid" _ i hi (by simpa using hi)
    rw [hv, map_const_getD _ df.rows i hi]

/-- C7 witness: "elpais_2021" yields "elpais", an underscore-free name
passes through unchanged, and the concrete one-row table carries the
constant on its row. -/
theorem C7_source_identifier_witness :
    _extract_newspaper_uid "elpais_2021" = "elpais" ∧
    _extract_newspaper_uid "elpais" = "elpais" ∧
    rowAt (_add_newspaper_uid_column w7df "elpais") 0 "newspaper_uid" =
      some (Cell.str "elpais") := by
  have h1 := C7_source_identifier "elpais_2021" w7df "elpais" 0 (by decide)
  have h2 := C7_source_identifier "elpais" w7df "elpais" 0 (by decide)
  exact ⟨h1.1.trans (by decide), h2.2.1 (by decide), h1.2.2.2⟩

/- ---------- Claim C8 ---------- -/

/-- C8 counterexample: a row whose uri is "http://[::1" (malformed
IPv6 authority) makes HostExtractor raise ValueError, aborting the
stage, instead of degrading to an empty host for that row. -/
theorem C8_counterexample :
    errorOf (_extract_host cDf8) = some PyError.valueError := by
  decide

/-- C8 as amended: on success HostExtractor sets every row's host to
the network-location component of its uri, and a uri that does not
carry a double-slash-introduced authority yields the empty host; but
a uri whose authority has unbalanced square brackets raises ValueError
and aborts the whole stage rather than degrading row-locally. -/
theorem C8_host_extractor (df d : DataFrame) (h : _extract_host df = .ok d) :
    (∀ i, i < df.rows.length →
      ∃ u nl, rowAt df i "uri" = some (Cell.str u) ∧ urlNetloc u = .ok nl ∧
        rowAt d i "host" = some (Cell.str nl)) ∧
    (∀ url : String,
      (urlAfterScheme (removeUnsafeBytes url.data)).take 2 ≠ ['/', '/'] →
      urlNetloc url = .ok "") := by
  obtain ⟨-, vals, hm, rfl⟩ := extract_host_ok df d h
  have hlen := mapME_length _ df.rows vals hm
  constructor
  · intro i hi
    have hg : hostCell (rowAt df i) = .ok (vals.getD i none) :=
      mapME_getD _ df.rows vals hm i hi
    unfold hostCell at hg
    split at hg
    · rename_i u hcell
      cases hnet : urlNetloc u with
      | error e =>
        rw [hnet] at hg
        exact Except.noConfusion hg
      | ok nl =>
        rw [hnet] at hg
        refine ⟨u, nl, hcell, hnet, ?_⟩
        rw [setColumn_rowAt_self df "host" vals i hi (hlen ▸ hi), ← Except.ok.inj hg]
    all_goals exact Except.noConfusion hg
  · intro url hne
    simp only [urlNetloc]
    rw [if_neg hne]

/-- C8 witness: on a concrete two-row table (a well-formed http uri
and a parseable but authority-free string) the stage succeeds and the
first row's host is its netloc. -/
theorem C8_host_extractor_witness :
    ∃ d, _extract_host w8df = .ok d ∧
      ∃ u nl, rowAt w8df 0 "uri" = some (Cell.str u) ∧ urlNetloc u = .ok nl ∧
        rowAt d 0 "host" = some (Cell.str nl) := by
  obtain ⟨d, hd⟩ := (stageOk_iff (_extract_host w8df)).mp (by decide)
  exact ⟨d, hd, (C8_host_extractor w8df d hd).1 0 (by decide)⟩

/- ---------- Claim C9 ---------- -/

/-- C9: whenever the whole pipeline completes, the returned table has
exactly as many rows as the loaded input table - no stage deletes a
row; dropna() only shapes the derived token-count series, never the
table itself. -/
theorem C9_row_count (tok : String → List String) (stop_words : List String)
    (filename : String) (df0 d : DataFrame)
    (h : pipelineMain tok stop_words filename df0 = .ok d) :
    d.rows.length = df0.rows.length := by
  obtain ⟨df2, df3, df4, df5, df6, h1, h2, h3, h4, h5, h6⟩ :=
    pipelineMain_ok tok stop_words filename df0 d h
  rw [tokenize_length tok stop_words df6 "body" d h6,
    tokenize_length tok stop_words df5 "title" df6 h5,
    remove_newlines_length df4 df5 h4,
    generate_uids_length df3 df4 h3,
    fill_nan_length df2 df3 h2,
    extract_host_length _ df2 h1,
    add_col_length df0 _]

/-- C9 witness: the full pipeline succeeds on a concrete one-row table
and preserves its row count. -/
theorem C9_row_count_witness :
    ∃ d, pipelineMain wTok [] "example_2021.csv" w9df = .ok d ∧
      d.rows.length = w9df.rows.length := by
  obtain ⟨d, hd⟩ :=
    (stageOk_iff (pipelineMain wTok [] "example_2021.csv" w9df)).mp (by decide)
  exact ⟨d, hd, C9_row_count wTok [] "example_2021.csv" w9df d hd⟩

/- ---------- Claim C10 ---------- -/

/-- C10: no pipeline stage ever writes the uri column - on completion
every row's uri in the returned table equals the loaded uri, so the
uid hash, the host and any repaired title were all computed from the
original uri. -/
theorem C10_uri_never_modified (tok : String → List String) (stop_words : List String)
    (filename : String) (df0 d : DataFrame)
    (h : pipelineMain tok stop_words filename df0 = .ok d) (i : Nat) :
    rowAt d i "uri" = rowAt df0 i "uri" := by
  obtain ⟨df2, df3, df4, df5, df6, h1, h2, h3, h4, h5, h6⟩ :=
    pipelineMain_ok tok stop_words filename df0 d h
  rw [tokenize_rowAt_other tok stop_words df6 "body" d h6 "uri" (by decide) i,
    tokenize_rowAt_other tok stop_words df5 "title" df6 h5 "uri" (by decide) i,
    remove_newlines_rowAt_other df4 df5 h4 "uri" (by decide) i,
    generate_uids_rowAt_other df3 df4 h3 "uri" (by decide) i,
    fill_nan_rowAt_other df2 df3 h2 "uri" (by decide) i,
    extract_host_rowAt_other _ df2 h1 "uri" (by decide) i,
    add_col_rowAt_other df0 _ "uri" i (by decide)]

/-- C10 witness: on the concrete pipeline run the output row still
carries the original uri. -/
theorem C10_uri_never_modified_witness :
    ∃ d, pipelineMain wTok [] "example_2021.csv" w9df = .ok d ∧
      rowAt d 0 "uri" = rowAt w9df 0 "uri" := by
  obtain ⟨d, hd⟩ :=
    (stageOk_iff (pipelineMain wTok [] "example_2021.csv" w9df)).mp (by decide)
  exact ⟨d, hd, C10_uri_never_modified wTok [] "example_2021.csv" w9df d hd 0⟩
